import Mathlib

/-!
Verification of the EcoLedger carbon-credit marketplace backend.

The repository contains several evolutions of the same Express server:
the current server (`src/unnamed/part_000`, namespace `Server` below) and
two earlier variants (`src/backend/server.js` and `src/unnamed/part_001`,
namespace `ServerV1` below, which agree on the marketplace listing,
browse and delist routes modelled here).

MongoDB collections are modelled as Lean lists; `updateOne` is modelled as
an update of the first matching element together with the matched-row
count; GridFS is modelled as a set of blob identifiers; the external Flask
authenticator and all sources of randomness (fresh ids, file names,
timestamps) are oracles passed to each operation as explicit arguments.
-/

namespace EcoLedger

/-- Mongo updateOne without upsert: update the first element matching the
filter and report the matched-row count (0 or 1); never inserts. -/
def updateOneDoc {α : Type} (p : α → Bool) (f : α → α) : List α → List α × Nat
  | [] => ([], 0)
  | x :: xs =>
    if p x then (f x :: xs, 1)
    else
      let r := updateOneDoc p f xs
      (x :: r.1, r.2)

/-- The collection after a Mongo updateOne (first match updated). -/
def updateFirst {α : Type} (p : α → Bool) (f : α → α) (l : List α) : List α :=
  (updateOneDoc p f l).1

theorem updateOneDoc_of_no_match {α : Type} (p : α → Bool) (f : α → α) :
    ∀ l : List α, (∀ x ∈ l, p x = false) → updateOneDoc p f l = (l, 0)
  | [], _ => rfl
  | x :: xs, h => by
    have hx : p x = false := h x (List.mem_cons_self x xs)
    have ih := updateOneDoc_of_no_match p f xs (fun y hy => h y (List.mem_cons_of_mem x hy))
    simp [updateOneDoc, hx, ih]

theorem length_updateOneDoc {α : Type} (p : α → Bool) (f : α → α) :
    ∀ l : List α, (updateOneDoc p f l).1.length = l.length
  | [] => rfl
  | x :: xs => by
    by_cases hx : p x = true
    · simp [updateOneDoc, hx]
    · simp only [updateOneDoc, Bool.not_eq_true] at hx ⊢
      simp [hx, length_updateOneDoc p f xs]

theorem mem_updateFirst {α : Type} {p : α → Bool} {f : α → α} :
    ∀ {l : List α} {x : α}, x ∈ updateFirst p f l →
      x ∈ l ∨ ∃ y ∈ l, p y = true ∧ x = f y
  | [], x, hx => by simp [updateFirst, updateOneDoc] at hx
  | y :: ys, x, hx => by
    by_cases hy : p y = true
    · simp only [updateFirst, updateOneDoc, hy, if_true] at hx
      rcases List.mem_cons.mp hx with h | h
      · exact Or.inr ⟨y, List.mem_cons_self y ys, hy, h⟩
      · exact Or.inl (List.mem_cons_of_mem y h)
    · simp only [updateFirst, updateOneDoc, hy, if_false] at hx
      rcases List.mem_cons.mp hx with h | h
      · exact Or.inl (h ▸ List.mem_cons_self y ys)
      · rcases mem_updateFirst h with h2 | ⟨z, hz, hpz, hxz⟩
        · exact Or.inl (List.mem_cons_of_mem y h2)
        · exact Or.inr ⟨z, List.mem_cons_of_mem y hz, hpz, hxz⟩

/-- Helper: mapping a function that fixes every non-matching element. -/
theorem map_eq_self_of_no_match {α : Type} {p : α → Bool} {f : α → α} :
    ∀ {l : List α}, (∀ x ∈ l, p x = false) →
      l.map (fun a => if p a then f a else a) = l
  | [], _ => rfl
  | x :: xs, h => by
    have hx : p x = false := h x (List.mem_cons_self x xs)
    have ih := map_eq_self_of_no_match (p := p) (f := f) (l := xs)
      (fun y hy => h y (List.mem_cons_of_mem x hy))
    simp [hx, ih]

/-- When at most one element of the collection can match the filter,
updating the first match is the same as updating every match. -/
theorem updateFirst_eq_map {α : Type} {p : α → Bool} {f : α → α} :
    ∀ {l : List α}, l.Pairwise (fun a b => ¬(p a = true ∧ p b = true)) →
      updateFirst p f l = l.map (fun a => if p a then f a else a)
  | [], _ => rfl
  | x :: xs, h => by
    rcases List.pairwise_cons.mp h with ⟨hhead, htail⟩
    by_cases hx : p x = true
    · have hnone : ∀ y ∈ xs, p y = false := by
        intro y hy
        rcases Bool.eq_false_or_eq_true (p y) with h1 | h0
        · exact absurd ⟨hx, h1⟩ (hhead y hy)
        · exact h0
      simp [updateFirst, updateOneDoc, hx, map_eq_self_of_no_match hnone]
    · simp only [Bool.not_eq_true] at hx
      have ih := updateFirst_eq_map (p := p) (f := f) (l := xs) htail
      simp only [updateFirst, updateOneDoc, hx] at ih ⊢
      simp [ih, hx]

theorem length_updateFirst {α : Type} (p : α → Bool) (f : α → α) (l : List α) :
    (updateFirst p f l).length = l.length :=
  length_updateOneDoc p f l

/-- Two members of a list that is pairwise-distinct under a key and share
that key are the same element. -/
theorem eq_of_pairwise_key {α : Type} {β : Type} {key : α → β} {l : List α}
    (h : l.Pairwise (fun a b => key a ≠ key b)) {a b : α}
    (ha : a ∈ l) (hb : b ∈ l) (hk : key a = key b) : a = b := by
  by_contra hne
  have hsym : Symmetric (fun x y : α => key x ≠ key y) :=
    fun x y hxy => fun h2 => hxy h2.symm
  exact (h.forall hsym ha hb hne) hk

/-- Pairwise-distinct keys give the unique-match hypothesis of
updateFirst_eq_map for any filter on one key value. -/
theorem pairwise_not_both {α β : Type} [BEq β] [LawfulBEq β]
    {g : α → β} {k : β} {l : List α}
    (h : l.Pairwise (fun a b => g a ≠ g b)) :
    l.Pairwise (fun a b => ¬((g a == k) = true ∧ (g b == k) = true)) :=
  h.imp (fun hab hc =>
    hab (by simp only [beq_iff_eq] at hc; exact hc.1.trans hc.2.symm))

/-- find? commutes with a map that preserves the predicate. -/
theorem find?_map_comm {α : Type} (g : α → α) (q : α → Bool)
    (hg : ∀ x, q (g x) = q x) :
    ∀ l : List α, (l.map g).find? q = (l.find? q).map g
  | [] => rfl
  | x :: xs => by
    by_cases hx : q x = true
    · rw [List.map_cons, List.find?_cons_of_pos _ ((hg x).trans hx),
          List.find?_cons_of_pos _ hx]
      rfl
    · have hx' : q x = false := by simpa using hx
      rw [List.map_cons, List.find?_cons_of_neg _ (by rw [hg x, hx']; exact Bool.false_ne_true),
          List.find?_cons_of_neg _ (by rw [hx']; exact Bool.false_ne_true),
          find?_map_comm g q hg xs]

/-! ## Data model shared with the external authenticator -/

/-- Structured fields extracted from a certificate by the Flask service. -/
structure ExtractedData where
  serial_number : Option String
  project_id : Option String
  project_name : Option String
  vintage : Option String
  amount : Option Rat
  category : Option String
  registry : Option String
deriving DecidableEq, Repr

/-- Response payload of a Flask authenticate round trip. -/
structure AuthData where
  success : Bool
  authenticated : Bool
  extracted_data : Option ExtractedData
  carbonmark_details : Option String
deriving DecidableEq, Repr

end EcoLedger

namespace EcoLedger.Server

/-! ## Current server (src/unnamed/part_000) -/

/-- A document of the users collection. -/
structure User where
  userId : String
  email : String
  name : String
  role : String
  credits : List String
deriving DecidableEq, Repr

/-- A document of the credits collection. -/
structure Credit where
  serialNumber : String
  fileId : Nat
  filename : String
  userId : String
  originalName : String
  fileSize : Nat
  uploadDate : Nat
  status : String
  extractedData : ExtractedData
  authenticatedAt : Option Nat
  authResult : Option AuthData
  carbonmarkDetails : Option String
deriving DecidableEq, Repr

/-- The creditDetails sub-document embedded in a marketplace listing. -/
structure CreditDetails where
  projectId : Option String
  projectName : Option String
  vintage : Option String
  registry : Option String
  serialNumber : Option String
deriving DecidableEq, Repr

/-- A document of the marketplace collection. -/
structure Listing where
  listingId : String
  serialNumber : String
  sellerId : String
  pricePerCredit : Rat
  currency : String
  amount : Rat
  description : String
  status : String
  listedAt : Nat
  creditDetails : CreditDetails
deriving DecidableEq, Repr

/-- The database plus the GridFS bucket (blob ids only; the bytes are
irrelevant to the specified behaviour). -/
structure ServerState where
  users : List User
  credits : List Credit
  blobs : List Nat
  marketplace : List Listing
  nextBlobId : Nat
deriving DecidableEq, Repr

/-- The part of a multer file object the routes inspect. -/
structure MFile where
  originalname : String
  mimetype : String
  size : Nat
deriving DecidableEq, Repr

inductive MulterError
  | invalidFileType
  | fileTooLarge
deriving DecidableEq, Repr

/-- limits.fileSize of the multer configuration (5 MB). -/
def fileSizeLimit : Nat := 5 * 1024 * 1024

/-- multer fileFilter plus fileSize limit (part_000 lines 96-104): only
a file whose MIME type is application/pdf is accepted, and the body is
aborted once it exceeds 5 * 1024 * 1024 bytes. -/
def multerCheck (f : MFile) : Except MulterError Unit :=
  if f.mimetype = "application/pdf" then
    if f.size ≤ fileSizeLimit then Except.ok () else Except.error MulterError.fileTooLarge
  else Except.error MulterError.invalidFileType

/-- validateUser middleware lookup: users.findOne by email. -/
def findUser (s : ServerState) (email : String) : Option User :=
  s.users.find? (fun u => u.email == email)

inductive UploadResult
  | userNotFound
  | noFile
  | flaskParsingFailed
  | extractionFailed
  | duplicateSerialNumber (serialNumber : String) (fileId : Nat)
  | created (serialNumber : String) (fileId : Nat)
deriving DecidableEq, Repr

/-- POST /api/credits/upload (part_000 lines 189-333). The Flask round
trip is the oracle argument flaskResp (none models an unreachable Flask),
freshName is the random GridFS file name and now the current time. -/
def uploadCredit (s : ServerState) (email : String) (file : Option MFile)
    (flaskResp : Option AuthData) (freshName : String) (now : Nat) :
    UploadResult × ServerState :=
  match findUser s email with
  | none => (UploadResult.userNotFound, s)
  | some user =>
    match file with
    | none => (UploadResult.noFile, s)
    | some f =>
      match flaskResp with
      | none => (UploadResult.flaskParsingFailed, s)
      | some resp =>
        if resp.success = false then (UploadResult.extractionFailed, s)
        else
          match resp.extracted_data with
          | none => (UploadResult.extractionFailed, s)
          | some ed =>
            match ed.serial_number with
            | none => (UploadResult.extractionFailed, s)
            | some sn =>
              match s.credits.find? (fun c => c.serialNumber == sn) with
              | some existing =>
                (UploadResult.duplicateSerialNumber existing.serialNumber existing.fileId, s)
              | none =>
                let blobId := s.nextBlobId
                let newCredit : Credit :=
                  { serialNumber := sn
                    fileId := blobId
                    filename := freshName
                    userId := user.userId
                    originalName := f.originalname
                    fileSize := f.size
                    uploadDate := now
                    status := "pending"
                    extractedData := ed
                    authenticatedAt := none
                    authResult := none
                    carbonmarkDetails := none }
                let users' := updateFirst (fun u => u.userId == user.userId)
                    (fun u => { u with credits := u.credits ++ [sn] }) s.users
                (UploadResult.created sn blobId,
                 { s with
                     blobs := s.blobs ++ [blobId]
                     credits := s.credits ++ [newCredit]
                     users := users'
                     nextBlobId := s.nextBlobId + 1 })

inductive AuthenticateResult
  | serverError
  | notFound
  | flaskFailed
  | updateFailed
  | ok (authenticated : Bool)
deriving DecidableEq, Repr

/-- The update applied to the credit by the authenticate route
(part_000 lines 405-421). -/
def applyAuthUpdate (authData : AuthData) (now : Nat) (c : Credit) : Credit :=
  let status := if authData.authenticated then "authenticated" else "unauthenticated"
  let c1 := { c with
                status := status
                authenticatedAt := some now
                authResult := some authData }
  let c2 :=
    match authData.extracted_data with
    | some ed => { c1 with extractedData := ed }
    | none => c1
  match authData.carbonmark_details with
  | some cd => { c2 with carbonmarkDetails := some cd }
  | none => c2

/-- POST /api/credits/authenticate (part_000 lines 335-453). A missing
user makes the handler dereference null and land in the catch block
(500); the Flask round trip is again an oracle. -/
def authenticateCredit (s : ServerState) (email : String) (serialNumber : String)
    (flaskResp : Option AuthData) (now : Nat) : AuthenticateResult × ServerState :=
  match findUser s email with
  | none => (AuthenticateResult.serverError, s)
  | some user =>
    match s.credits.find? (fun c => c.serialNumber == serialNumber && c.userId == user.userId) with
    | none => (AuthenticateResult.notFound, s)
    | some _ =>
      match flaskResp with
      | none => (AuthenticateResult.flaskFailed, s)
      | some authData =>
        let credits' := updateFirst
          (fun c => c.serialNumber == serialNumber && c.userId == user.userId)
          (applyAuthUpdate authData now) s.credits
        if credits' = s.credits then (AuthenticateResult.updateFailed, s)
        else (AuthenticateResult.ok authData.authenticated, { s with credits := credits' })

/-- The credits updateOne of the authenticate route in isolation
(part_000 lines 418-421): filter on serialNumber and userId, $set the
update, no upsert; returns the new collection and the matched-row count. -/
def updateStatus (credits : List Credit) (serialNumber userId : String)
    (updFields : Credit → Credit) : List Credit × Nat :=
  updateOneDoc (fun c => c.serialNumber == serialNumber && c.userId == userId)
    updFields credits

inductive ListResult
  | userNotFound
  | missingFields
  | invalidCredit
  | listed (l : Listing)
deriving DecidableEq, Repr

/-- POST /api/marketplace/list (part_000 lines 491-574). A price of 0 is
falsy in JavaScript and is caught by the missing-fields check. -/
def listCredit (s : ServerState) (email : String) (serialNumber : Option String)
    (pricePerCredit : Option Rat) (description : Option String)
    (freshListingId : String) (now : Nat) : ListResult × ServerState :=
  match findUser s email with
  | none => (ListResult.userNotFound, s)
  | some user =>
    match serialNumber, pricePerCredit with
    | some sn, some price =>
      if price = 0 then (ListResult.missingFields, s)
      else
        match s.credits.find? (fun c =>
            c.serialNumber == sn && c.userId == user.userId && c.status == "authenticated") with
        | none => (ListResult.invalidCredit, s)
        | some credit =>
          let listing : Listing :=
            { listingId := freshListingId
              serialNumber := sn
              sellerId := user.userId
              pricePerCredit := price
              currency := "USD"
              amount := (credit.extractedData.amount).getD 1
              description := description.getD
                ("Carbon credits from " ++ (credit.extractedData.project_name).getD "undefined")
              status := "listed"
              listedAt := now
              creditDetails :=
                { projectId := credit.extractedData.project_id
                  projectName := credit.extractedData.project_name
                  vintage := credit.extractedData.vintage
                  registry := credit.extractedData.registry
                  serialNumber := credit.extractedData.serial_number } }
          let credits' := updateFirst (fun c => c.serialNumber == sn)
              (fun c => { c with status := "listed" }) s.credits
          (ListResult.listed listing,
           { s with
               marketplace := s.marketplace ++ [listing]
               credits := credits' })
    | _, _ => (ListResult.missingFields, s)

/-- GET /api/marketplace/listings (part_000 lines 577-602): filter by the
status query parameter (default listed), sort by listedAt descending,
skip offset, take limit, and count the matching documents. -/
def getListings (s : ServerState) (status : String) (limit offset : Nat) :
    List Listing × Nat :=
  let matching := s.marketplace.filter (fun l => l.status == status)
  let sorted := matching.insertionSort (fun a b => b.listedAt ≤ a.listedAt)
  ((sorted.drop offset).take limit, matching.length)

end EcoLedger.Server

namespace EcoLedger.ServerV1

/-! ## Earlier server variant (src/backend/server.js and src/unnamed/part_001)

These two files share the marketplace list, browse and delist routes
modelled here: listings live in the marketplace_listings collection, a
live listing has status active, credits are addressed by their Mongo
document id, and delisting soft-removes the listing and reverts the
credit. -/

/-- The fields of a users document the marketplace routes read
(uid models the Mongo document id req.user._id). -/
structure UserV1 where
  uid : String
  email : String
  name : String
deriving DecidableEq, Repr

/-- The fields of a credits document the marketplace routes read and
write (creditId models the Mongo document id). -/
structure CreditV1 where
  creditId : Nat
  serialNumber : String
  userId : String
  amount : Rat
  projectId : String
  projectName : String
  vintage : String
  registry : String
  category : String
  status : String
  listedAt : Option Nat
  listingId : Option Nat
deriving DecidableEq, Repr

/-- A document of the marketplace_listings collection. -/
structure ListingV1 where
  listingId : Nat
  creditId : Nat
  sellerId : String
  sellerEmail : String
  sellerName : String
  serialNumber : String
  projectId : String
  projectName : String
  vintage : String
  amount : Rat
  registry : String
  category : String
  pricePerCredit : Rat
  totalValue : Rat
  description : String
  status : String
  createdAt : Nat
  updatedAt : Nat
  removedAt : Option Nat
deriving DecidableEq, Repr

/-- The credits and marketplace_listings collections. -/
structure MarketState where
  credits : List CreditV1
  listings : List ListingV1
deriving DecidableEq, Repr

inductive ListV1Result
  | missingFields
  | invalidPrice
  | creditNotFound
  | alreadyListed
  | created (l : ListingV1)
deriving DecidableEq, Repr

/-- POST /api/marketplace/list (server.js lines 286-392, part_001 lines
206-312). A price of 0 is falsy and is caught by the missing-fields
check before the positivity check. -/
def listCreditV1 (s : MarketState) (user : UserV1) (creditId : Option Nat)
    (pricePerCredit : Option Rat) (description : Option String)
    (freshId : Nat) (now : Nat) : ListV1Result × MarketState :=
  match creditId, pricePerCredit with
  | some cid, some price =>
    if price = 0 then (ListV1Result.missingFields, s)
    else if price ≤ 0 then (ListV1Result.invalidPrice, s)
    else
      match s.credits.find? (fun c => c.creditId == cid && c.userId == user.uid) with
      | none => (ListV1Result.creditNotFound, s)
      | some credit =>
        match s.listings.find? (fun l => l.creditId == cid && l.status == "active") with
        | some _ => (ListV1Result.alreadyListed, s)
        | none =>
          let listing : ListingV1 :=
            { listingId := freshId
              creditId := cid
              sellerId := user.uid
              sellerEmail := user.email
              sellerName := user.name
              serialNumber := credit.serialNumber
              projectId := credit.projectId
              projectName := credit.projectName
              vintage := credit.vintage
              amount := credit.amount
              registry := credit.registry
              category := credit.category
              pricePerCredit := price
              totalValue := price * credit.amount
              description := description.getD
                ("Verified carbon credits from " ++ credit.projectName)
              status := "active"
              createdAt := now
              updatedAt := now
              removedAt := none }
          let credits' := updateFirst (fun c => c.creditId == cid)
              (fun c => { c with
                            status := "listed"
                            listedAt := some now
                            listingId := some freshId }) s.credits
          (ListV1Result.created listing,
           { credits := credits', listings := s.listings ++ [listing] })
  | _, _ => (ListV1Result.missingFields, s)

/-- The query parameters of GET /api/marketplace/listings. -/
structure BrowseQuery where
  page : Nat
  limit : Nat
  category : Option String
  vintage : Option String
  minPrice : Option Rat
  maxPrice : Option Rat
deriving DecidableEq, Repr

/-- The Mongo filter built by the browse route (server.js lines 399-408):
status is fixed to active, the other criteria apply only when the
corresponding query parameter is present. -/
def matchesFilter (q : BrowseQuery) (l : ListingV1) : Bool :=
  l.status == "active" &&
  (match q.category with
   | none => true
   | some c => l.category == c) &&
  (match q.vintage with
   | none => true
   | some v => l.vintage == v) &&
  (match q.minPrice with
   | none => true
   | some m => decide (m ≤ l.pricePerCredit)) &&
  (match q.maxPrice with
   | none => true
   | some m => decide (l.pricePerCredit ≤ m))

/-- GET /api/marketplace/listings (server.js lines 395-454, part_001
lines 315-374): filter, sort by createdAt descending, skip
(page - 1) * limit, take limit, and count the matching documents. -/
def getListingsV1 (s : MarketState) (q : BrowseQuery) : List ListingV1 × Nat :=
  let matching := s.listings.filter (matchesFilter q)
  let sorted := matching.insertionSort (fun a b => b.createdAt ≤ a.createdAt)
  let skip := (q.page - 1) * q.limit
  ((sorted.drop skip).take q.limit, matching.length)

inductive DelistResult
  | listingNotFound
  | removed
deriving DecidableEq, Repr

/-- DELETE /api/marketplace/listings/:listingId (server.js lines 492-542,
part_001 lines 412-462): look the listing up by id and seller (with no
status condition), soft-remove it, and revert the referenced credit to
authenticated, unsetting its listedAt and listingId. -/
def removeListing (s : MarketState) (user : UserV1) (listingId : Nat) (now : Nat) :
    DelistResult × MarketState :=
  match s.listings.find? (fun l => l.listingId == listingId && l.sellerId == user.uid) with
  | none => (DelistResult.listingNotFound, s)
  | some listing =>
    let listings' := updateFirst (fun l => l.listingId == listingId)
        (fun l => { l with status := "removed", removedAt := some now }) s.listings
    let credits' := updateFirst (fun c => c.creditId == listing.creditId)
        (fun c => { c with
                      status := "authenticated"
                      listedAt := none
                      listingId := none }) s.credits
    (DelistResult.removed, { credits := credits', listings := listings' })

/-- A listing with its removedAt timestamp erased, used to compare
states up to that timestamp. -/
def eraseRemovedAt (l : ListingV1) : ListingV1 :=
  { l with removedAt := none }

/-- A member of a variant browse result lies in the listings collection
and satisfies the built Mongo filter. -/
theorem mem_getListingsV1 {s : MarketState} {q : BrowseQuery} {x : ListingV1}
    (hx : x ∈ (getListingsV1 s q).1) :
    x ∈ s.listings ∧ matchesFilter q x = true := by
  simp only [getListingsV1] at hx
  have h1 : x ∈ (s.listings.filter (matchesFilter q)).insertionSort
      (fun a b => b.createdAt ≤ a.createdAt) :=
    ((List.take_sublist _ _).trans (List.drop_sublist _ _)).subset hx
  have h2 := (List.perm_insertionSort
    (fun a b : ListingV1 => b.createdAt ≤ a.createdAt) _).mem_iff.mp h1
  exact List.mem_filter.mp h2

end EcoLedger.ServerV1

namespace EcoLedger.Server

/-! ## Concrete fixtures used by witnesses and counterexamples -/

/-- Fixture: a registered user owning serial SN-1. -/
def fxUser : User :=
  { userId := "U1", email := "a@b.c", name := "A", role := "user", credits := ["SN-1"] }

/-- Fixture: extracted fields carrying serial SN-1 and amount 2. -/
def fxExtracted : ExtractedData :=
  { serial_number := some "SN-1"
    project_id := some "P1"
    project_name := some "Forest"
    vintage := some "2020"
    amount := some 2
    category := some "forestry"
    registry := some "VCS" }

/-- Fixture: a credit record for SN-1 owned by fxUser. -/
def fxCredit (status : String) : Credit :=
  { serialNumber := "SN-1"
    fileId := 0
    filename := "f.pdf"
    userId := "U1"
    originalName := "orig.pdf"
    fileSize := 4
    uploadDate := 0
    status := status
    extractedData := fxExtracted
    authenticatedAt := none
    authResult := none
    carbonmarkDetails := none }

/-- Fixture: a server state with one user and one SN-1 credit. -/
def fxState (status : String) : ServerState :=
  { users := [fxUser]
    credits := [fxCredit status]
    blobs := [0]
    marketplace := []
    nextBlobId := 1 }

/-- Fixture: a successful Flask response re-extracting SN-1. -/
def fxResp : AuthData :=
  { success := true
    authenticated := true
    extracted_data := some fxExtracted
    carbonmark_details := none }

/-- Fixture: a small PDF upload. -/
def fxFile : MFile :=
  { originalname := "cert.pdf", mimetype := "application/pdf", size := 4 }

/-! ## C1: duplicate serial numbers are rejected without storing anything -/

/-- C1: when the serial number extracted for an upload already belongs to
an existing credit record, the upload returns duplicate_serial_number
(409) with the existing record's serial and file reference, and the
state — the original credit, the users, and the blob store — is returned
unchanged, so no blob is stored for the second upload. -/
theorem upload_duplicate_serial_rejected
    (s : ServerState) (email : String) (f : MFile) (resp : AuthData)
    (freshName : String) (now : Nat) (user : User) (ed : ExtractedData)
    (sn : String) (existing : Credit)
    (hUser : findUser s email = some user)
    (hSucc : resp.success = true)
    (hEd : resp.extracted_data = some ed)
    (hSn : ed.serial_number = some sn)
    (hDup : s.credits.find? (fun c => c.serialNumber == sn) = some existing) :
    uploadCredit s email (some f) (some resp) freshName now =
      (UploadResult.duplicateSerialNumber existing.serialNumber existing.fileId, s) := by
  simp [uploadCredit, hUser, hSucc, hEd, hSn, hDup]

/-- Witness for C1: re-uploading SN-1 into a state that already holds an
SN-1 credit is rejected with the existing record's reference and leaves
the state untouched. -/
theorem upload_duplicate_serial_rejected_witness :
    findUser (fxState "pending") "a@b.c" = some fxUser ∧
    (fxState "pending").credits.find? (fun c => c.serialNumber == "SN-1") =
      some (fxCredit "pending") ∧
    uploadCredit (fxState "pending") "a@b.c" (some fxFile) (some fxResp) "x" 9 =
      (UploadResult.duplicateSerialNumber "SN-1" 0, fxState "pending") :=
  ⟨by decide, by decide,
   upload_duplicate_serial_rejected (fxState "pending") "a@b.c" fxFile fxResp "x" 9
     fxUser fxExtracted "SN-1" (fxCredit "pending")
     (by decide) (by decide) (by decide) (by decide) (by decide)⟩

/-! ## C3: listing requires an authenticated credit owned by the caller -/

/-- C3: a marketplace list request fails with invalid_credit (404) and
creates no listing whenever the caller owns no credit with the requested
serial number whose status is exactly authenticated — in particular when
the credit is pending, unauthenticated or already listed, or when it is
owned by someone else; the state is returned unchanged. -/
theorem list_rejects_unauthenticated_or_unowned
    (s : ServerState) (email : String) (sn : String) (price : Rat)
    (desc : Option String) (fid : String) (now : Nat) (user : User)
    (hUser : findUser s email = some user)
    (hPrice : price ≠ 0)
    (hNo : ¬ ∃ c ∈ s.credits,
        c.serialNumber = sn ∧ c.userId = user.userId ∧ c.status = "authenticated") :
    listCredit s email (some sn) (some price) desc fid now = (ListResult.invalidCredit, s) := by
  have hfind : s.credits.find? (fun c =>
      c.serialNumber == sn && c.userId == user.userId && c.status == "authenticated") = none := by
    rw [List.find?_eq_none]
    intro c hc hpc
    simp only [Bool.and_eq_true, beq_iff_eq] at hpc
    exact hNo ⟨c, hc, hpc.1.1, hpc.1.2, hpc.2⟩
  simp [listCredit, hUser, hPrice, hfind]

/-- Witness for C3: trying to list the still-pending SN-1 credit fails
with invalid_credit and changes nothing. -/
theorem list_rejects_unauthenticated_or_unowned_witness :
    listCredit (fxState "pending") "a@b.c" (some "SN-1") (some 3) none "L1" 9 =
      (ListResult.invalidCredit, fxState "pending") :=
  list_rejects_unauthenticated_or_unowned (fxState "pending") "a@b.c" "SN-1" 3 none "L1" 9
    fxUser (by decide) (by decide) (by decide)

/-! ## C4: failures before the blob-commit step commit nothing -/

/-- C4: an upload for which the authenticator round trip does not produce
a serial number fails with extraction_failed and returns the state
unchanged, and more generally every non-created upload outcome — missing
user, missing file, unreachable Flask, extraction failure or duplicate —
returns the state unchanged: no blob is stored and no credit record is
created. -/
theorem upload_failure_commits_nothing
    (s : ServerState) (email : String) (file : Option MFile)
    (flaskResp : Option AuthData) (freshName : String) (now : Nat) :
    (∀ user f resp, findUser s email = some user → file = some f →
       flaskResp = some resp →
       (resp.success = false ∨ resp.extracted_data.bind (fun ed => ed.serial_number) = none) →
       uploadCredit s email file flaskResp freshName now = (UploadResult.extractionFailed, s)) ∧
    (∀ r s', uploadCredit s email file flaskResp freshName now = (r, s') →
       (∀ sn fid, r ≠ UploadResult.created sn fid) → s' = s) := by
  constructor
  · intro user f resp hUser hf hr hbad
    subst hf
    subst hr
    rcases hbad with hs | hb
    · simp [uploadCredit, hUser, hs]
    · rcases he : resp.extracted_data with _ | ed
      · simp [uploadCredit, hUser, he]
      · rw [he] at hb
        replace hb : ed.serial_number = none := hb
        cases hsucc : resp.success
        · simp [uploadCredit, hUser, hsucc]
        · simp [uploadCredit, hUser, hsucc, he, hb]
  · intro r s' heq hnc
    unfold uploadCredit at heq
    repeat' split at heq
    all_goals injection heq with hr hs
    all_goals first
      | exact hs.symm
      | exact absurd hr.symm (hnc _ _)

/-- Witness for C4: a Flask response whose extracted data carries no
serial number makes the upload fail with extraction_failed and leaves the
state — blobs included — exactly as it was. -/
theorem upload_failure_commits_nothing_witness :
    uploadCredit (fxState "pending") "a@b.c" (some fxFile)
        (some { success := true, authenticated := false,
                extracted_data := some { fxExtracted with serial_number := none },
                carbonmark_details := none }) "x" 9 =
      (UploadResult.extractionFailed, fxState "pending") :=
  (upload_failure_commits_nothing (fxState "pending") "a@b.c" (some fxFile)
      (some { success := true, authenticated := false,
              extracted_data := some { fxExtracted with serial_number := none },
              carbonmark_details := none }) "x" 9).1
    fxUser fxFile _ (by decide) rfl rfl (Or.inr (by decide))

/-! ## C5: multer accepts exactly small PDFs -/

/-- C5: the upload middleware accepts a file exactly when its MIME type
is application/pdf and its size is at most the 5 MB ceiling; a file of
another MIME type is rejected as an invalid file type and a PDF above
the ceiling is rejected as too large. -/
theorem multer_accepts_iff (f : MFile) :
    (multerCheck f = Except.ok () ↔
      f.mimetype = "application/pdf" ∧ f.size ≤ fileSizeLimit) ∧
    (f.mimetype ≠ "application/pdf" →
      multerCheck f = Except.error MulterError.invalidFileType) ∧
    (f.mimetype = "application/pdf" → fileSizeLimit < f.size →
      multerCheck f = Except.error MulterError.fileTooLarge) := by
  refine ⟨⟨fun h => ?_, fun h => ?_⟩, fun h1 => ?_, fun h1 h2 => ?_⟩
  · by_cases h1 : f.mimetype = "application/pdf"
    · by_cases h2 : f.size ≤ fileSizeLimit
      · exact ⟨h1, h2⟩
      · simp [multerCheck, h1, h2] at h
    · simp [multerCheck, h1] at h
  · simp [multerCheck, h.1, h.2]
  · simp [multerCheck, h1]
  · simp [multerCheck, h1, Nat.not_le.mpr h2]

/-- Witness for C5: a 6 MB PDF is rejected as too large, and a small PDF
is accepted. -/
theorem multer_accepts_iff_witness :
    multerCheck { originalname := "big.pdf", mimetype := "application/pdf",
                  size := 6 * 1024 * 1024 } = Except.error MulterError.fileTooLarge ∧
    multerCheck fxFile = Except.ok () :=
  ⟨(multer_accepts_iff _).2.2 rfl (by decide),
   (multer_accepts_iff fxFile).1.mpr ⟨rfl, by decide⟩⟩

/-! ## C8: the status update never creates and reports zero rows on a miss -/

/-- C8: the credit-repository status update used by the authenticate
route — updateOne filtered on serialNumber and userId with no upsert —
reports zero matched rows and leaves the collection unchanged whenever no
record carries that serial number with that owner, and it never changes
the number of records, so it never creates one. -/
theorem updateStatus_noop_unmatched :
    (∀ (credits : List Credit) (sn uid : String) (f : Credit → Credit),
       (∀ c ∈ credits, ¬(c.serialNumber = sn ∧ c.userId = uid)) →
       updateStatus credits sn uid f = (credits, 0)) ∧
    (∀ (credits : List Credit) (sn uid : String) (f : Credit → Credit),
       (updateStatus credits sn uid f).1.length = credits.length) := by
  constructor
  · intro credits sn uid f h
    apply updateOneDoc_of_no_match
    intro c hc
    rcases Bool.eq_false_or_eq_true (c.serialNumber == sn && c.userId == uid) with h1 | h0
    · simp only [Bool.and_eq_true, beq_iff_eq] at h1
      exact absurd h1 (h c hc)
    · exact h0
  · intro credits sn uid f
    exact length_updateOneDoc _ _ _

/-- Witness for C8: updating SN-2 (or SN-1 under the wrong owner) in a
collection holding only SN-1 owned by U1 matches zero rows and leaves
the collection as it was. -/
theorem updateStatus_noop_unmatched_witness :
    updateStatus [fxCredit "pending"] "SN-1" "U2"
        (fun c => { c with status := "authenticated" }) = ([fxCredit "pending"], 0) :=
  updateStatus_noop_unmatched.1 [fxCredit "pending"] "SN-1" "U2" _ (by decide)

/-! ## C2: the status state machine -/

/-- The status written by the authenticate route depends only on the
Flask verdict, not on the credit's current status. -/
theorem applyAuthUpdate_status (a : AuthData) (now : Nat) (c : Credit) :
    (applyAuthUpdate a now c).status =
      if a.authenticated then "authenticated" else "unauthenticated" := by
  unfold applyAuthUpdate
  cases h1 : a.extracted_data <;> cases h2 : a.carbonmark_details <;> rfl

/-- Counterexample to C2: the authenticate route does not check the
current status of the credit, so a listed credit whose re-verification
comes back negative moves listed → unauthenticated, a transition the
claim forbids ("a listed credit is never moved by the authentication
operation"). -/
theorem authenticate_moves_listed_credit :
    (fxState "listed").credits.map (fun c => c.status) = ["listed"] ∧
    ((authenticateCredit (fxState "listed") "a@b.c" "SN-1"
        (some { success := true, authenticated := false,
                extracted_data := none, carbonmark_details := none }) 7).2.credits.map
      (fun c => c.status)) = ["unauthenticated"] :=
  ⟨by decide, by decide⟩

/-- C2 amended: upload only ever appends a credit in status pending and
leaves existing records unchanged; the authenticate operation moves a
credit (of any current status, listed and unauthenticated included) to
authenticated or unauthenticated according to the Flask verdict; and —
given the unique index on serialNumber — the list operation is the only
way into listed and takes only an authenticated credit there. -/
theorem credit_status_transitions :
    (∀ (s : ServerState) (email : String) (file : Option MFile)
       (flaskResp : Option AuthData) (freshName : String) (now : Nat),
       (uploadCredit s email file flaskResp freshName now).2.credits = s.credits ∨
       ∃ c, c.status = "pending" ∧
         (uploadCredit s email file flaskResp freshName now).2.credits = s.credits ++ [c]) ∧
    (∀ (s : ServerState) (email sn : String) (flaskResp : Option AuthData) (now : Nat),
       ∀ c' ∈ (authenticateCredit s email sn flaskResp now).2.credits,
         c' ∈ s.credits ∨ c'.status = "authenticated" ∨ c'.status = "unauthenticated") ∧
    (∀ (s : ServerState) (email sn : String) (price : Option Rat)
       (desc : Option String) (fid : String) (now : Nat),
       s.credits.Pairwise (fun a b => a.serialNumber ≠ b.serialNumber) →
       ∀ c' ∈ (listCredit s email (some sn) price desc fid now).2.credits,
         c' ∈ s.credits ∨
         (c'.status = "listed" ∧
          ∃ c ∈ s.credits, c.status = "authenticated" ∧
            c' = { c with status := "listed" })) := by
  refine ⟨?_, ?_, ?_⟩
  · intro s email file flaskResp freshName now
    unfold uploadCredit
    repeat' split
    all_goals first
      | exact Or.inl rfl
      | exact Or.inr ⟨_, rfl, rfl⟩
  · intro s email sn flaskResp now c' hc'
    rcases hU : findUser s email with _ | user
    · simp only [authenticateCredit, hU] at hc'
      exact Or.inl hc'
    · simp only [authenticateCredit, hU] at hc'
      rcases hF : s.credits.find?
          (fun c => c.serialNumber == sn && c.userId == user.userId) with _ | credit
      · simp only [hF] at hc'
        exact Or.inl hc'
      · simp only [hF] at hc'
        rcases flaskResp with _ | authData
        · exact Or.inl hc'
        · by_cases hch : updateFirst
              (fun c => c.serialNumber == sn && c.userId == user.userId)
              (applyAuthUpdate authData now) s.credits = s.credits
          · simp only [if_pos hch] at hc'
            exact Or.inl hc'
          · simp only [if_neg hch] at hc'
            replace hc' : c' ∈ updateFirst
                (fun c => c.serialNumber == sn && c.userId == user.userId)
                (applyAuthUpdate authData now) s.credits := hc'
            rcases mem_updateFirst hc' with h | ⟨y, _, _, rfl⟩
            · exact Or.inl h
            · rw [applyAuthUpdate_status]
              cases authData.authenticated
              · exact Or.inr (Or.inr (by simp))
              · exact Or.inr (Or.inl (by simp))
  · intro s email sn price desc fid now hP c' hc'
    rcases hU : findUser s email with _ | user
    · simp only [listCredit, hU] at hc'
      exact Or.inl hc'
    · rcases price with _ | p
      · simp only [listCredit, hU] at hc'
        exact Or.inl hc'
      · simp only [listCredit, hU] at hc'
        by_cases hp0 : p = 0
        · simp only [if_pos hp0] at hc'
          exact Or.inl hc'
        · simp only [if_neg hp0] at hc'
          rcases hF : s.credits.find? (fun c =>
              c.serialNumber == sn && c.userId == user.userId &&
                c.status == "authenticated") with _ | credit
          · simp only [hF] at hc'
            exact Or.inl hc'
          · simp only [hF] at hc'
            replace hc' : c' ∈ updateFirst (fun c => c.serialNumber == sn)
                (fun c => { c with status := "listed" }) s.credits := hc'
            rcases mem_updateFirst hc' with h | ⟨y, hy, hpy, rfl⟩
            · exact Or.inl h
            · have hysn : y.serialNumber = sn := by simpa using hpy
              have hcred := List.find?_some hF
              have hcm := List.mem_of_find?_eq_some hF
              simp only [Bool.and_eq_true, beq_iff_eq] at hcred
              have hyc : y = credit :=
                eq_of_pairwise_key hP hy hcm (by rw [hysn, hcred.1.1])
              subst hyc
              exact Or.inr ⟨rfl, y, hy, hcred.2, rfl⟩

/-- Witness for the amended C2: with Flask unreachable the authenticate
operation leaves the single authenticated credit in place, so it is still
a member of the original collection. -/
theorem credit_status_transitions_witness :
    fxCredit "authenticated" ∈ (fxState "authenticated").credits ∨
    (fxCredit "authenticated").status = "authenticated" ∨
    (fxCredit "authenticated").status = "unauthenticated" :=
  credit_status_transitions.2.1 (fxState "authenticated") "a@b.c" "SN-1" none 7
    (fxCredit "authenticated") (by decide)

/-! ## C6: browse filtering, sorting and pagination -/

/-- A member of a browse result lies in the marketplace collection and
carries the requested status. -/
theorem mem_getListings {s : ServerState} {status : String} {limit offset : Nat}
    {x : Listing} (hx : x ∈ (getListings s status limit offset).1) :
    x ∈ s.marketplace ∧ x.status = status := by
  simp only [getListings] at hx
  have h1 : x ∈ (s.marketplace.filter (fun l => l.status == status)).insertionSort
      (fun a b => b.listedAt ≤ a.listedAt) :=
    ((List.take_sublist _ _).trans (List.drop_sublist _ _)).subset hx
  have h2 := (List.perm_insertionSort
    (fun a b : Listing => b.listedAt ≤ a.listedAt) _).mem_iff.mp h1
  rcases List.mem_filter.mp h2 with ⟨hmem, hst⟩
  exact ⟨hmem, beq_iff_eq.mp hst⟩

/-- Fixture: a marketplace listing of the current server. -/
def fxListing (status : String) (t : Nat) : Listing :=
  { listingId := "L1"
    serialNumber := "SN-1"
    sellerId := "U1"
    pricePerCredit := 3
    currency := "USD"
    amount := 2
    description := "d"
    status := status
    listedAt := t
    creditDetails :=
      { projectId := some "P1"
        projectName := some "Forest"
        vintage := some "2020"
        registry := some "VCS"
        serialNumber := some "SN-1" } }

/-- Fixture: a state whose marketplace holds one removed listing. -/
def fxBrowseState : ServerState :=
  { users := [fxUser]
    credits := [fxCredit "authenticated"]
    blobs := [0]
    marketplace := [fxListing "removed" 4]
    nextBlobId := 1 }

/-- Counterexample to C6: the status filter of the browse route is a
caller-supplied query parameter (default listed), so requesting
status=removed makes browse return a removed listing — the browse
operation does not return only listings whose status is listed. -/
theorem browse_returns_removed_listings :
    (getListings fxBrowseState "removed" 20 0).1 = [fxListing "removed" 4] ∧
    (fxListing "removed" 4).status = "removed" :=
  ⟨by decide, rfl⟩

/-- C6 amended: the current browse route returns exactly the listings
whose status equals the status query parameter (so removed listings
appear only when explicitly requested), sorted newest-first by listedAt,
paginated by limit/offset (the window at offset is the full prefix of
size offset + limit with its first offset entries dropped) together with
a total count of all matching listings; category, vintage and price-range
filters exist only in the earlier variant's browse route, which applies
them over listings with the fixed live status active, sorted newest-first
by createdAt. -/
theorem browse_filters_sorts_paginates :
    (∀ (s : ServerState) (status : String) (limit offset : Nat),
       ∀ l ∈ (getListings s status limit offset).1, l.status = status) ∧
    (∀ (s : ServerState) (status : String) (limit offset : Nat),
       (getListings s status limit offset).2 =
         (s.marketplace.filter (fun l => l.status == status)).length) ∧
    (∀ (s : ServerState) (status : String) (limit offset : Nat),
       ((getListings s status limit offset).1).Pairwise
         (fun a b => b.listedAt ≤ a.listedAt)) ∧
    (∀ (s : ServerState) (status : String) (limit offset : Nat),
       (getListings s status limit offset).1.length ≤ limit) ∧
    (∀ (s : ServerState) (status : String) (limit offset : Nat),
       (getListings s status limit offset).1 =
         ((getListings s status (offset + limit) 0).1).drop offset) ∧
    (∀ (s : ServerV1.MarketState) (q : ServerV1.BrowseQuery),
       ∀ l ∈ (ServerV1.getListingsV1 s q).1,
         l.status = "active" ∧
         (∀ c, q.category = some c → l.category = c) ∧
         (∀ v, q.vintage = some v → l.vintage = v) ∧
         (∀ m, q.minPrice = some m → m ≤ l.pricePerCredit) ∧
         (∀ m, q.maxPrice = some m → l.pricePerCredit ≤ m)) ∧
    (∀ (s : ServerV1.MarketState) (q : ServerV1.BrowseQuery),
       ((ServerV1.getListingsV1 s q).1).Pairwise
         (fun a b => b.createdAt ≤ a.createdAt)) := by
  refine ⟨?_, ?_, ?_, ?_, ?_, ?_, ?_⟩
  · intro s status limit offset l hl
    exact (mem_getListings hl).2
  · intro s status limit offset
    rfl
  · intro s status limit offset
    haveI : IsTotal Listing (fun a b => b.listedAt ≤ a.listedAt) :=
      ⟨fun a b => le_total b.listedAt a.listedAt⟩
    haveI : IsTrans Listing (fun a b => b.listedAt ≤ a.listedAt) :=
      ⟨fun _ _ _ h1 h2 => le_trans h2 h1⟩
    have hs := List.sorted_insertionSort (fun a b : Listing => b.listedAt ≤ a.listedAt)
      (s.marketplace.filter (fun l => l.status == status))
    exact List.Pairwise.sublist ((List.take_sublist _ _).trans (List.drop_sublist _ _)) hs
  · intro s status limit offset
    exact List.length_take_le limit _
  · intro s status limit offset
    simp only [getListings, List.drop_zero]
    rw [List.drop_take]
    congr 1
    omega
  · intro s q l hl
    rcases ServerV1.mem_getListingsV1 hl with ⟨_, hf⟩
    simp only [ServerV1.matchesFilter, Bool.and_eq_true, beq_iff_eq,
      decide_eq_true_eq] at hf
    refine ⟨hf.1.1.1.1, ?_, ?_, ?_, ?_⟩
    · intro c hc
      have := hf.1.1.1.2
      rw [hc] at this
      simpa using this
    · intro v hv
      have := hf.1.1.2
      rw [hv] at this
      simpa using this
    · intro m hm
      have := hf.1.2
      rw [hm] at this
      simpa using this
    · intro m hm
      have := hf.2
      rw [hm] at this
      simpa using this
  · intro s q
    haveI : IsTotal ServerV1.ListingV1 (fun a b => b.createdAt ≤ a.createdAt) :=
      ⟨fun a b => le_total b.createdAt a.createdAt⟩
    haveI : IsTrans ServerV1.ListingV1 (fun a b => b.createdAt ≤ a.createdAt) :=
      ⟨fun _ _ _ h1 h2 => le_trans h2 h1⟩
    have hs := List.sorted_insertionSort
      (fun a b : ServerV1.ListingV1 => b.createdAt ≤ a.createdAt)
      (s.listings.filter (ServerV1.matchesFilter q))
    exact List.Pairwise.sublist ((List.take_sublist _ _).trans (List.drop_sublist _ _)) hs

/-- Witness for the amended C6: the one listing returned when browsing
with status=removed indeed has that requested status. -/
theorem browse_filters_sorts_paginates_witness :
    (fxListing "removed" 4).status = "removed" :=
  browse_filters_sorts_paginates.1 fxBrowseState "removed" 20 0
    (fxListing "removed" 4) (by decide)

end EcoLedger.Server

namespace EcoLedger.ServerV1

/-! ## Fixtures for the variant marketplace routes -/

/-- Fixture: a validated variant user. -/
def fxUserV1 : UserV1 := { uid := "M1", email := "a@b.c", name := "A" }

/-- Fixture: a variant credit document with id 1 owned by M1. -/
def fxCreditV1 (status : String) : CreditV1 :=
  { creditId := 1
    serialNumber := "SN-1"
    userId := "M1"
    amount := 2
    projectId := "P1"
    projectName := "Forest"
    vintage := "2020"
    registry := "VCS"
    category := "forestry"
    status := status
    listedAt := none
    listingId := none }

/-- Fixture: an active listing with id 5 of credit 1, sold by M1. -/
def fxListingV1 : ListingV1 :=
  { listingId := 5
    creditId := 1
    sellerId := "M1"
    sellerEmail := "a@b.c"
    sellerName := "A"
    serialNumber := "SN-1"
    projectId := "P1"
    projectName := "Forest"
    vintage := "2020"
    amount := 2
    registry := "VCS"
    category := "forestry"
    pricePerCredit := 3
    totalValue := 6
    description := "d"
    status := "active"
    createdAt := 3
    updatedAt := 3
    removedAt := none }

/-- Fixture: a market with the listed credit 1 and its active listing 5. -/
def fxMarket : MarketState :=
  { credits := [fxCreditV1 "listed"], listings := [fxListingV1] }

/-- Fixture: a market with an authenticated, unlisted credit 1. -/
def fxMarketUnlisted : MarketState :=
  { credits := [fxCreditV1 "authenticated"], listings := [] }

/-! ## C7: delisting soft-removes and reverts the credit -/

/-- C7: a delist by someone who does not own the listing (or naming a
listing that does not exist) fails with 404 and changes nothing; a
delist by the owner succeeds: it keeps the listing in the collection
with status removed (never deletes it), reverts the referenced credit to
authenticated (unsetting listedAt and listingId), leaves unrelated
listings untouched, and a subsequent browse — under any query — no
longer returns that listing. -/
theorem removeListing_spec :
    (∀ (s : MarketState) (user : UserV1) (lid now : Nat),
       s.listings.find? (fun l => l.listingId == lid && l.sellerId == user.uid) = none →
       removeListing s user lid now = (DelistResult.listingNotFound, s)) ∧
    (∀ (s : MarketState) (user : UserV1) (lid now : Nat) (listing : ListingV1),
       s.listings.find? (fun l => l.listingId == lid && l.sellerId == user.uid) =
         some listing →
       s.listings.Pairwise (fun a b => a.listingId ≠ b.listingId) →
       s.credits.Pairwise (fun a b => a.creditId ≠ b.creditId) →
       (removeListing s user lid now).1 = DelistResult.removed ∧
       { listing with status := "removed", removedAt := some now } ∈
         (removeListing s user lid now).2.listings ∧
       (∀ l' ∈ (removeListing s user lid now).2.listings,
          l'.listingId ≠ lid → l' ∈ s.listings) ∧
       (∀ c' ∈ (removeListing s user lid now).2.credits,
          c'.creditId = listing.creditId →
            c'.status = "authenticated" ∧ c'.listedAt = none ∧ c'.listingId = none) ∧
       (∀ (q : BrowseQuery) (x : ListingV1),
          x ∈ (getListingsV1 (removeListing s user lid now).2 q).1 →
            x.listingId ≠ lid)) := by
  constructor
  · intro s user lid now h
    simp [removeListing, h]
  · intro s user lid now listing hF hPL hPC
    have hmem := List.mem_of_find?_eq_some hF
    have hpred := List.find?_some hF
    simp only [Bool.and_eq_true, beq_iff_eq] at hpred
    have hred : removeListing s user lid now =
        (DelistResult.removed,
         { credits := updateFirst (fun c => c.creditId == listing.creditId)
             (fun c => { c with
                           status := "authenticated"
                           listedAt := none
                           listingId := none }) s.credits
           listings := updateFirst (fun l => l.listingId == lid)
             (fun l => { l with status := "removed", removedAt := some now })
             s.listings }) := by
      simp [removeListing, hF]
    have hmapL := updateFirst_eq_map
      (f := fun l => { l with status := "removed", removedAt := some now })
      (pairwise_not_both (g := fun l : ListingV1 => l.listingId) (k := lid) hPL)
    have hmapC := updateFirst_eq_map
      (f := fun c => { c with
                         status := "authenticated"
                         listedAt := none
                         listingId := none })
      (pairwise_not_both (g := fun c : CreditV1 => c.creditId)
        (k := listing.creditId) hPC)
    rw [hred]
    refine ⟨rfl, ?_, ?_, ?_, ?_⟩
    · show _ ∈ updateFirst _ _ s.listings
      rw [hmapL]
      have hx := List.mem_map_of_mem
        (fun l => if l.listingId == lid
          then { l with status := "removed", removedAt := some now } else l) hmem
      simpa [hpred.1] using hx
    · intro l' hl' hne
      replace hl' : l' ∈ updateFirst (fun l => l.listingId == lid)
          (fun l => { l with status := "removed", removedAt := some now })
          s.listings := hl'
      rw [hmapL] at hl'
      rcases List.mem_map.mp hl' with ⟨y, hy, rfl⟩
      by_cases hPy : (y.listingId == lid) = true
      · exfalso
        apply hne
        rw [if_pos hPy]
        show y.listingId = lid
        exact beq_iff_eq.mp hPy
      · rw [if_neg hPy]
        exact hy
    · intro c' hc' hcid
      replace hc' : c' ∈ updateFirst (fun c => c.creditId == listing.creditId)
          (fun c => { c with
                        status := "authenticated"
                        listedAt := none
                        listingId := none }) s.credits := hc'
      rw [hmapC] at hc'
      rcases List.mem_map.mp hc' with ⟨y, hy, rfl⟩
      by_cases hPy : (y.creditId == listing.creditId) = true
      · rw [if_pos hPy]
        exact ⟨rfl, rfl, rfl⟩
      · rw [if_neg hPy] at hcid ⊢
        exact absurd hcid (by simpa using hPy)
    · intro q x hx
      rcases mem_getListingsV1 hx with ⟨hxm, hxf⟩
      replace hxm : x ∈ updateFirst (fun l => l.listingId == lid)
          (fun l => { l with status := "removed", removedAt := some now })
          s.listings := hxm
      rw [hmapL] at hxm
      rcases List.mem_map.mp hxm with ⟨y, hy, rfl⟩
      by_cases hPy : (y.listingId == lid) = true
      · rw [if_pos hPy] at hxf
        simp [matchesFilter] at hxf
      · rw [if_neg hPy]
        intro hxeq
        exact hPy (beq_iff_eq.mpr hxeq)

/-- Witness for C7: the owner delists listing 5; the call succeeds and
the soft-removed listing (status removed, removedAt stamped) is still in
the collection. -/
theorem removeListing_spec_witness :
    (removeListing fxMarket fxUserV1 5 7).1 = DelistResult.removed ∧
    { fxListingV1 with status := "removed", removedAt := some 7 } ∈
      (removeListing fxMarket fxUserV1 5 7).2.listings := by
  have h := removeListing_spec.2 fxMarket fxUserV1 5 7 fxListingV1
    (by decide) (by decide) (by decide)
  exact ⟨h.1, h.2.1⟩

/-! ## C9: totalValue of a created listing -/

/-- A listing of the state that passes the unfiltered full-length browse
query is returned by it. -/
theorem mem_full_browse {s : MarketState} {x : ListingV1}
    (hx : x ∈ s.listings)
    (hf : matchesFilter
      { page := 1, limit := s.listings.length,
        category := none, vintage := none, minPrice := none, maxPrice := none } x = true) :
    x ∈ (getListingsV1 s
      { page := 1, limit := s.listings.length,
        category := none, vintage := none, minPrice := none, maxPrice := none }).1 := by
  have hmemf : x ∈ s.listings.filter (matchesFilter
      { page := 1, limit := s.listings.length,
        category := none, vintage := none, minPrice := none, maxPrice := none }) :=
    List.mem_filter.mpr ⟨hx, hf⟩
  have hperm := List.perm_insertionSort
    (fun a b : ListingV1 => b.createdAt ≤ a.createdAt)
    (s.listings.filter (matchesFilter
      { page := 1, limit := s.listings.length,
        category := none, vintage := none, minPrice := none, maxPrice := none }))
  have hmems := hperm.mem_iff.mpr hmemf
  have hlen : ((s.listings.filter (matchesFilter
      { page := 1, limit := s.listings.length,
        category := none, vintage := none, minPrice := none, maxPrice := none })).insertionSort
        (fun a b => b.createdAt ≤ a.createdAt)).length ≤ s.listings.length := by
    rw [hperm.length_eq]
    exact List.length_filter_le _ _
  simp only [getListingsV1]
  rw [show (1 : Nat) - 1 = 0 from rfl, Nat.zero_mul, List.drop_zero,
    List.take_of_length_le hlen]
  exact hmems

/-- C9: a successful listing of an owned credit of amount a at price p
creates a listing whose totalValue is p * a; the listing is created with
status active and is returned by a subsequent browse (run unfiltered with
the page large enough to cover the collection). -/
theorem list_totalValue_and_browse
    (s : MarketState) (user : UserV1) (cid : Nat) (price : Rat)
    (desc : Option String) (freshId now : Nat) (credit : CreditV1)
    (hC : s.credits.find? (fun c => c.creditId == cid && c.userId == user.uid) =
      some credit)
    (hNL : s.listings.find? (fun l => l.creditId == cid && l.status == "active") = none)
    (hP : 0 < price) :
    ∃ listing : ListingV1,
      (listCreditV1 s user (some cid) (some price) desc freshId now).1 =
        ListV1Result.created listing ∧
      listing.totalValue = price * credit.amount ∧
      listing.status = "active" ∧
      listing ∈ (getListingsV1
        (listCreditV1 s user (some cid) (some price) desc freshId now).2
        { page := 1,
          limit := (listCreditV1 s user (some cid) (some price) desc
            freshId now).2.listings.length,
          category := none, vintage := none, minPrice := none, maxPrice := none }).1 := by
  have hp0 : ¬ price = 0 := fun h => by rw [h] at hP; exact lt_irrefl 0 hP
  have hple : ¬ price ≤ 0 := not_le.mpr hP
  simp only [listCreditV1, if_neg hp0, if_neg hple, hC, hNL]
  refine ⟨_, rfl, rfl, rfl, ?_⟩
  exact mem_full_browse (List.mem_append_right _ (List.mem_singleton.mpr rfl)) rfl

/-- Witness for C9: listing the authenticated credit 1 (amount 2) at
price 3 creates an active listing of totalValue 3 * 2 that the
subsequent browse returns. -/
theorem list_totalValue_and_browse_witness :
    ∃ listing : ListingV1,
      (listCreditV1 fxMarketUnlisted fxUserV1 (some 1) (some 3) none 5 3).1 =
        ListV1Result.created listing ∧
      listing.totalValue = 3 * (fxCreditV1 "authenticated").amount ∧
      listing.status = "active" ∧
      listing ∈ (getListingsV1
        (listCreditV1 fxMarketUnlisted fxUserV1 (some 1) (some 3) none 5 3).2
        { page := 1,
          limit := (listCreditV1 fxMarketUnlisted fxUserV1 (some 1) (some 3)
            none 5 3).2.listings.length,
          category := none, vintage := none, minPrice := none, maxPrice := none }).1 :=
  list_totalValue_and_browse fxMarketUnlisted fxUserV1 1 3 none 5 3
    (fxCreditV1 "authenticated") (by decide) rfl (by decide)

end EcoLedger.ServerV1

namespace EcoLedger.ServerV1

/-! ## C10: delisting twice -/

/-- Counterexample to C10: the second delist does succeed, but it is not
a no-op on the state — it re-stamps the listing's removedAt with the
second call's time, so the final state differs from the state after the
first delist. -/
theorem delist_twice_changes_removedAt :
    (removeListing (removeListing fxMarket fxUserV1 5 1).2 fxUserV1 5 2).1 =
      DelistResult.removed ∧
    ((removeListing fxMarket fxUserV1 5 1).2.listings.map
      (fun l => l.removedAt)) = [some 1] ∧
    ((removeListing (removeListing fxMarket fxUserV1 5 1).2 fxUserV1 5 2).2.listings.map
      (fun l => l.removedAt)) = [some 2] ∧
    (removeListing (removeListing fxMarket fxUserV1 5 1).2 fxUserV1 5 2).2 ≠
      (removeListing fxMarket fxUserV1 5 1).2 :=
  ⟨by decide, by decide, by decide, by decide⟩

/-- C10 amended: after a successful delist, a second delist of the same
listingId by the same owner succeeds again (the lookup does not filter on
listing status); it leaves the credits collection exactly as it was and
changes the listings collection only in the removedAt timestamp — the
listing statuses (removed) and the credit statuses (authenticated) are
unchanged. -/
theorem delist_idempotent_up_to_removedAt
    (s : MarketState) (user : UserV1) (lid t1 t2 : Nat) (s1 : MarketState)
    (h1 : removeListing s user lid t1 = (DelistResult.removed, s1))
    (hPL : s.listings.Pairwise (fun a b => a.listingId ≠ b.listingId))
    (hPC : s.credits.Pairwise (fun a b => a.creditId ≠ b.creditId)) :
    (removeListing s1 user lid t2).1 = DelistResult.removed ∧
    (removeListing s1 user lid t2).2.credits = s1.credits ∧
    (removeListing s1 user lid t2).2.listings.map eraseRemovedAt =
      s1.listings.map eraseRemovedAt := by
  rcases hF : s.listings.find? (fun l => l.listingId == lid && l.sellerId == user.uid)
    with _ | listing
  · simp only [removeListing, hF] at h1
    simp at h1
  · have hpred := List.find?_some hF
    simp only [Bool.and_eq_true, beq_iff_eq] at hpred
    simp only [removeListing, hF] at h1
    injection h1 with h1a h1b
    subst h1b
    have hmapL := updateFirst_eq_map
      (f := fun l => { l with status := "removed", removedAt := some t1 })
      (pairwise_not_both (g := fun l : ListingV1 => l.listingId) (k := lid) hPL)
    have hq : ∀ x : ListingV1,
        (((if (x.listingId == lid) = true
            then { x with status := "removed", removedAt := some t1 }
            else x).listingId == lid) &&
         ((if (x.listingId == lid) = true
            then { x with status := "removed", removedAt := some t1 }
            else x).sellerId == user.uid)) =
        ((x.listingId == lid) && (x.sellerId == user.uid)) := by
      intro x
      by_cases hx : (x.listingId == lid) = true
      · rw [if_pos hx]
      · rw [if_neg hx]
    have hF1 : (updateFirst (fun l => l.listingId == lid)
        (fun l => { l with status := "removed", removedAt := some t1 })
        s.listings).find? (fun l => l.listingId == lid && l.sellerId == user.uid) =
        some { listing with status := "removed", removedAt := some t1 } := by
      rw [hmapL, find?_map_comm _ _ hq, hF]
      show some (if (listing.listingId == lid) = true then _ else listing) = _
      rw [if_pos (beq_iff_eq.mpr hpred.1)]
    simp only [removeListing, hF1]
    refine ⟨trivial, ?_, ?_⟩
    · show updateFirst (fun c => c.creditId == listing.creditId)
        (fun c => { c with status := "authenticated", listedAt := none, listingId := none })
        (updateFirst (fun c => c.creditId == listing.creditId)
          (fun c => { c with status := "authenticated", listedAt := none, listingId := none })
          s.credits) =
        updateFirst (fun c => c.creditId == listing.creditId)
          (fun c => { c with status := "authenticated", listedAt := none, listingId := none })
          s.credits
      have hmapC := updateFirst_eq_map
        (f := fun c : CreditV1 =>
          { c with status := "authenticated", listedAt := none, listingId := none })
        (pairwise_not_both (g := fun c : CreditV1 => c.creditId)
          (k := listing.creditId) hPC)
      rw [hmapC]
      have hid : ∀ a : CreditV1,
          (if (a.creditId == listing.creditId) = true
            then { a with status := "authenticated", listedAt := none, listingId := none }
            else a).creditId = a.creditId := by
        intro a
        by_cases ha : (a.creditId == listing.creditId) = true
        · rw [if_pos ha]
        · rw [if_neg ha]
      have hPC1 : (s.credits.map (fun a =>
          if (a.creditId == listing.creditId) = true
            then { a with status := "authenticated", listedAt := none, listingId := none }
            else a)).Pairwise (fun a b => a.creditId ≠ b.creditId) := by
        rw [List.pairwise_map]
        refine hPC.imp ?_
        intro a b hab
        rw [hid a, hid b]
        exact hab
      have hmapC2 := updateFirst_eq_map
        (f := fun c : CreditV1 =>
          { c with status := "authenticated", listedAt := none, listingId := none })
        (pairwise_not_both (g := fun c : CreditV1 => c.creditId)
          (k := listing.creditId) hPC1)
      rw [hmapC2, List.map_map]
      refine List.map_congr_left ?_
      intro a _
      by_cases ha : (a.creditId == listing.creditId) = true
      · simp only [Function.comp_apply, if_pos ha]
      · simp only [Function.comp_apply, if_neg ha]
    · show (updateFirst (fun l => l.listingId == lid)
          (fun l => { l with status := "removed", removedAt := some t2 })
          (updateFirst (fun l => l.listingId == lid)
            (fun l => { l with status := "removed", removedAt := some t1 })
            s.listings)).map eraseRemovedAt =
        (updateFirst (fun l => l.listingId == lid)
          (fun l => { l with status := "removed", removedAt := some t1 })
          s.listings).map eraseRemovedAt
      rw [hmapL]
      have hidL : ∀ a : ListingV1,
          (if (a.listingId == lid) = true
            then { a with status := "removed", removedAt := some t1 }
            else a).listingId = a.listingId := by
        intro a
        by_cases ha : (a.listingId == lid) = true
        · rw [if_pos ha]
        · rw [if_neg ha]
      have hPL1 : (s.listings.map (fun a =>
          if (a.listingId == lid) = true
            then { a with status := "removed", removedAt := some t1 }
            else a)).Pairwise (fun a b => a.listingId ≠ b.listingId) := by
        rw [List.pairwise_map]
        refine hPL.imp ?_
        intro a b hab
        rw [hidL a, hidL b]
        exact hab
      have hmapL2 := updateFirst_eq_map
        (f := fun l : ListingV1 => { l with status := "removed", removedAt := some t2 })
        (pairwise_not_both (g := fun l : ListingV1 => l.listingId) (k := lid) hPL1)
      rw [hmapL2, List.map_map, List.map_map, List.map_map]
      refine List.map_congr_left ?_
      intro a _
      by_cases ha : (a.listingId == lid) = true
      · simp only [Function.comp_apply, if_pos ha]
        rfl
      · simp only [Function.comp_apply, if_neg ha]

/-- Witness for the amended C10: delisting listing 5 twice (at times 1
and 2) succeeds both times, keeps the credits collection of the first
delist unchanged, and the listings differ only in removedAt. -/
theorem delist_idempotent_up_to_removedAt_witness :
    (removeListing (removeListing fxMarket fxUserV1 5 1).2 fxUserV1 5 2).1 =
      DelistResult.removed ∧
    (removeListing (removeListing fxMarket fxUserV1 5 1).2 fxUserV1 5 2).2.credits =
      (removeListing fxMarket fxUserV1 5 1).2.credits ∧
    (removeListing (removeListing fxMarket fxUserV1 5 1).2 fxUserV1 5 2).2.listings.map
        eraseRemovedAt =
      (removeListing fxMarket fxUserV1 5 1).2.listings.map eraseRemovedAt :=
  delist_idempotent_up_to_removedAt fxMarket fxUserV1 5 1 2
    (removeListing fxMarket fxUserV1 5 1).2 (by decide) (by decide) (by decide)

end EcoLedger.ServerV1
